import Mathlib

/-!
Verification development for the bootstrap orchestrator in `src/lib/bootstrap.js`.

The file shallowly embeds the bootstrap sequence (lines 75-168 of
`src/lib/bootstrap.js`): config merging, the `configSources` / `envPrefix`
gates, the id attachment, lando instance construction, the `pre-bootstrap`
emission, the Bluebird `.map` plugin-load step, the `post-bootstrap`
emission, and the `_.once` wrapper.  External collaborators that are not
part of the repository snapshot (the `./config` helpers, the event bus,
the plugin loader, `object-hash`) are modelled from the specification and
are marked as such in their doc comments; their observable outcomes are
supplied as oracle functions in an `Env` record so that theorems quantify
over every possible collaborator behaviour.
-/

namespace LandoBootstrap

/-- A JSON-like JavaScript value: the payloads that flow through the config
merger (scalars, arrays, nested objects).  Objects are association lists of
string keys, first occurrence wins on property lookup. -/
inductive Value where
  | null : Value
  | bool : Bool → Value
  | num : Int → Value
  | str : String → Value
  | list : List Value → Value
  | obj : List (String × Value) → Value

/-- A JavaScript object: an association list of properties. -/
abbrev Obj := List (String × Value)

/-- JavaScript property lookup on an object (first occurrence of the key). -/
def lookupObj : Obj → String → Option Value
  | [], _ => none
  | (k', v) :: rest, k => if k' = k then some v else lookupObj rest k

mutual
/-- Modelled from the spec: `helpers.merge` (the Config Merger from
`./config`, not part of the source snapshot).  Deep merge of two values:
when both sides are mappings they merge recursively, otherwise the later
(second) value replaces the earlier one wholesale (sequences and scalars
are replaced, not concatenated). -/
def mergeVal : Value → Value → Value
  | Value.obj a, Value.obj b =>
      Value.obj (mergeEntries a b ++ b.filter (fun p => (lookupObj a p.1).isNone))
  | _, w => w
termination_by v w => sizeOf v + sizeOf w
decreasing_by
  all_goals simp
  all_goals omega

/-- Deep-merge a value with the (optional) matching entry of the other
object: merge when present, keep as-is when absent. -/
def mergeUnder (v : Value) : Option Value → Value
  | some w => mergeVal v w
  | none => v
termination_by o => sizeOf v + sizeOf o
decreasing_by
  all_goals simp

/-- Entries of the first object, each deep-merged with the matching entry of
the second object when one exists. -/
def mergeEntries : Obj → Obj → Obj
  | [], _ => []
  | (k, v) :: rest, b => (k, mergeUnder v (lookupObj b k)) :: mergeEntries rest b
termination_by a b => sizeOf a + sizeOf b
decreasing_by
  all_goals
    have hlb : sizeOf (lookupObj b k) ≤ sizeOf b := by
      induction b with
      | nil => simp [lookupObj]
      | cons hd tl ih =>
        obtain ⟨k2, v2⟩ := hd
        by_cases hk : k2 = k
        · subst hk
          simp [lookupObj]
          omega
        · simp [lookupObj, hk]
          omega
  all_goals simp
  all_goals omega
end

/-- Modelled from the spec: `helpers.merge` on two config objects (later
argument wins on key collision, mappings merge recursively). -/
def merge (a b : Obj) : Obj :=
  mergeEntries a b ++ b.filter (fun p => (lookupObj a p.1).isNone)

/-- Is this value a nested mapping? -/
def isObjVal : Value → Bool
  | Value.obj _ => true
  | _ => false

/-- Lodash `_.isEmpty` on an (optional) property value: `undefined`, empty
arrays, empty objects and empty strings are empty; numbers, booleans and
`null` are also treated as empty by lodash. -/
def jsIsEmpty : Option Value → Bool
  | none => true
  | some (Value.list l) => l.isEmpty
  | some (Value.obj o) => o.isEmpty
  | some (Value.str s) => s.isEmpty
  | some _ => true

/-- JavaScript falsiness: `null`, `false`, `0` and the empty string are
falsy; arrays and objects are always truthy. -/
def jsFalsy : Value → Bool
  | Value.null => true
  | Value.bool false => true
  | Value.num 0 => true
  | Value.str "" => true
  | _ => false

/-- Lodash `_.has`: the object has the key as an own property. -/
def hasKey (c : Obj) (k : String) : Bool :=
  (lookupObj c k).isSome

/-- JavaScript property assignment `c[k] = v`: overwrite the property if
present, append it otherwise. -/
def setKey : Obj → String → Value → Obj
  | [], k, v => [(k, v)]
  | (k', v') :: rest, k, v =>
      if k' = k then (k, v) :: rest else (k', v') :: setKey rest k v

/-- Modelled from the spec: the Identity Deriver (`object-hash` in line 94,
an external dependency).  A deterministic content hash of the seed string,
here 32-bit FNV-1a over the characters; only string seeds (the
`userConfRoot` path) are distinguished. -/
def hashString (s : String) : Nat :=
  s.toList.foldl (fun h c => ((h ^^^ c.toNat) * 16777619) % 4294967296) 2166136261

/-- Modelled from the spec: `hasher(config.userConfRoot)` applied to the
looked-up property (which may be absent). -/
def hasher : Option Value → Nat
  | some (Value.str s) => hashString s
  | _ => 0

/-- Failures of the bootstrap sequence, named by stage as in the spec's
error taxonomy (section 7). -/
inductive BErr where
  | configLoad (msg : String)
  | eventHandler (event : String) (handler : String)
  | pluginInit (name : String)
deriving DecidableEq

/-- The Instance: the lando object returned by `require('./lando')(config)`.
Its event bus, plugin loader and logger are behavioural collaborators and
live in `Env`; the data the bootstrap sequence threads through is the
config. -/
structure Lando where
  config : Obj

/-- Observable steps of the bootstrap sequence, recorded as a trace. -/
inductive Ev where
  | loadFilesCall
  | loadEnvsCall
  | buildInstance
  | emitPre
  | preDone
  | loadStart (p : Value)
  | loadEnd (p : Value)
  | emitPost
  | postDone
  | ret

/-- The external collaborators of `bootstrap.js`, supplied as oracles:
`defaults`, `loadFiles` and `loadEnvs` model the `./config` helpers
(modelled from the spec: `loadFiles` fails hard with a `ConfigLoadError`
on a missing or unparsable file, `loadEnvs` is total and yields an empty
mapping when nothing matches); `preHandlers` and `postHandlers` model the
aggregate outcome of one `lando.events.emit` round (handlers may mutate
the config or fail); `loadPlugin` models the outcome of one
`lando.plugins.load` registration. -/
structure Env where
  defaults : Obj
  loadFiles : Value → Except String Obj
  loadEnvs : Value → Obj
  preHandlers : Obj → Except BErr Obj
  loadPlugin : Value → Except BErr Unit
  postHandlers : Obj → Except BErr Unit

/-- Lines 89-91: if `envPrefix` is a key of the config, merge in the
env-sourced config. -/
def envStep (env : Env) (c : Obj) : Obj × List Ev :=
  if hasKey c "envPrefix" then
    (merge c (env.loadEnvs ((lookupObj c "envPrefix").getD Value.null)), [Ev.loadEnvsCall])
  else
    (c, [])

/-- Lines 81-91: start from `helpers.merge(helpers.defaults(), options)`,
then merge file-sourced config when `configSources` is non-empty (a load
failure is a synchronous `ConfigLoadError` throw), then merge env-sourced
config when `envPrefix` is present. -/
def mergedConfigT (env : Env) (options : Obj) : Except BErr Obj × List Ev :=
  let c1 := merge env.defaults options
  if jsIsEmpty (lookupObj c1 "configSources") then
    let s := envStep env c1
    (Except.ok s.1, s.2)
  else
    match env.loadFiles ((lookupObj c1 "configSources").getD Value.null) with
    | Except.error msg => (Except.error (BErr.configLoad msg), [Ev.loadFilesCall])
    | Except.ok files =>
        let s := envStep env (merge c1 files)
        (Except.ok s.1, Ev.loadFilesCall :: s.2)

/-- Line 94: `config.id = hasher(config.userConfRoot)`. -/
def attachId (c : Obj) : Obj :=
  setKey c "id" (Value.num (Int.ofNat (hasher (lookupObj c "userConfRoot"))))

/-- Lines 81-94: the fully resolved config (or the synchronous failure). -/
def resolvedConfigT (env : Env) (options : Obj) : Except BErr Obj × List Ev :=
  match mergedConfigT env options with
  | (Except.error e, t) => (Except.error e, t)
  | (Except.ok c, t) => (Except.ok (attachId c), t)

/-- Line 134: `lando.config.plugins || []`.  An absent or falsy `plugins`
property yields the empty list (a truthy non-array value is outside the
modelled domain: Bluebird would reject mapping over it). -/
def pluginList (c : Obj) : List Value :=
  match lookupObj c "plugins" with
  | some (Value.list l) => l
  | _ => []

/-- The first failure among the plugin registrations, in list order. -/
def firstLoadError (env : Env) (ps : List Value) : Option BErr :=
  ps.findSome? (fun p =>
    match env.loadPlugin p with
    | Except.error e => some e
    | Except.ok _ => none)

/-- Lines 138-140: the trace of the Bluebird `.map` over the plugin list.
Bluebird `.map` runs with unbounded concurrency: the mapper is invoked for
every entry, in list order, before any registration promise settles, so
every `loadStart` precedes every `loadEnd`.  The relative order of the
completions depends on the scheduler; the claims proved below do not
depend on it and the model lists them in list order. -/
def mapLoadTrace (ps : List Value) : List Ev :=
  ps.map Ev.loadStart ++ ps.map Ev.loadEnd

/-- Lines 134-166 of the promise chain, after `pre-bootstrap` completed
with the (possibly mutated) config `c2`: read `lando.config.plugins || []`
(line 134), map the Plugin Loader over the list (lines 138-140), emit
`post-bootstrap` (line 159) and return the instance (line 165).  A
rejection skips every later `.then` and rejects the returned promise. -/
def afterPre (env : Env) (c2 : Obj) : Except BErr Lando × List Ev :=
  match firstLoadError env (pluginList c2) with
  | some e => (Except.error e, mapLoadTrace (pluginList c2))
  | none =>
      match env.postHandlers c2 with
      | Except.error e =>
          (Except.error e, mapLoadTrace (pluginList c2) ++ [Ev.emitPost])
      | Except.ok _ =>
          (Except.ok ⟨c2⟩,
           mapLoadTrace (pluginList c2) ++ [Ev.emitPost, Ev.postDone, Ev.ret])

/-- Lines 97-166: build the lando instance (line 97), emit `pre-bootstrap`
with the instance's config (line 125), and continue with `afterPre` once
the emission completed.  A failed emission rejects the promise and skips
everything after it. -/
def bodyAfterConfig (env : Env) (c : Obj) : Except BErr Lando × List Ev :=
  match env.preHandlers c with
  | Except.error e => (Except.error e, [Ev.buildInstance, Ev.emitPre])
  | Except.ok c2 =>
      ((afterPre env c2).1,
       [Ev.buildInstance, Ev.emitPre, Ev.preDone] ++ (afterPre env c2).2)

/-- How one invocation of the function wrapped by `_.once` ends: with a
synchronous exception, or with a returned promise that is either fulfilled
with the lando instance or rejected. -/
inductive Outcome where
  | thrown (e : BErr)
  | promise (r : Except BErr Lando)

/-- Lines 75-168: one execution of the bootstrap function body, together
with the trace of its observable steps. -/
def bootstrapBody (env : Env) (options : Obj) : Outcome × List Ev :=
  match resolvedConfigT env options with
  | (Except.error e, t) => (Outcome.thrown e, t)
  | (Except.ok c, t) =>
      let r := bodyAfterConfig env c
      (Outcome.promise r.1, t ++ r.2)

/-- The memo of lodash `_.once` (which is `_.before(2, func)`): a call
counter and the cached return value, which stays `none` (i.e. `undefined`)
until the wrapped function returns normally. -/
structure OnceState where
  n : Int
  result : Option (Except BErr Lando)

/-- The fresh `_.once` state for a new process. -/
def onceInit : OnceState := ⟨2, none⟩

/-- Line 75: `module.exports = _.once(function(options) ...)`.  One call of
the exported bootstrap entry point: lodash `before` decrements its counter;
while it is still positive the wrapped body runs and its returned promise
is cached (a synchronous throw propagates and caches nothing); afterwards
the call returns the cached value without running anything. -/
def bootstrapCall (env : Env) (st : OnceState) (options : Obj) :
    Except BErr (Option (Except BErr Lando)) × List Ev × OnceState :=
  let n2 := st.n - 1
  if n2 > 0 then
    match bootstrapBody env options with
    | (Outcome.thrown e, t) => (Except.error e, t, ⟨n2, st.result⟩)
    | (Outcome.promise r, t) => (Except.ok (some r), t, ⟨n2, some r⟩)
  else
    (Except.ok st.result, [], ⟨n2, st.result⟩)

/-- Recognisers for the trace events. -/
def isLoadStart : Ev → Bool
  | Ev.loadStart _ => true
  | _ => false

def isLoadEnd : Ev → Bool
  | Ev.loadEnd _ => true
  | _ => false

def isEmitPre : Ev → Bool
  | Ev.emitPre => true
  | _ => false

def isPreDone : Ev → Bool
  | Ev.preDone => true
  | _ => false

def isEmitPost : Ev → Bool
  | Ev.emitPost => true
  | _ => false

def isPostDone : Ev → Bool
  | Ev.postDone => true
  | _ => false

def isRet : Ev → Bool
  | Ev.ret => true
  | _ => false

/-- The start of the registration of the plugin named `s`. -/
def isLoadStartNamed (s : String) : Ev → Bool
  | Ev.loadStart (Value.str t) => s == t
  | _ => false

/-- The completion of the registration of the plugin named `s`. -/
def isLoadEndNamed (s : String) : Ev → Bool
  | Ev.loadEnd (Value.str t) => s == t
  | _ => false

/-- The events emitted by the config-resolution stage (lines 81-91). -/
def isCfgEv : Ev → Bool
  | Ev.loadFilesCall => true
  | Ev.loadEnvsCall => true
  | _ => false

/-- Every event satisfying `p` occurs strictly before every event
satisfying `q` in the trace: once a `q`-event has occurred, no `p`-event
may follow. -/
def orderedB (p q : Ev → Bool) : List Ev → Bool
  | [] => true
  | e :: tr => (!(q e) || tr.all (fun x => !(p x))) && orderedB p q tr

/-- The sequential-loading property the spec claims for step 7: for every
pair of entries in list order, the earlier plugin's registration completes
before the later plugin's registration begins. -/
def loadsSequentialB (tr : List Ev) : List String → Bool
  | [] => true
  | s :: rest =>
      rest.all (fun s2 => orderedB (isLoadEndNamed s) (isLoadStartNamed s2) tr)
        && loadsSequentialB tr rest

/-- A bootstrap environment whose two plugins both register successfully. -/
def envC4 : Env :=
  ⟨[], fun _ => Except.ok [], fun _ => [], Except.ok,
   fun _ => Except.ok (), fun _ => Except.ok ()⟩

/-- Caller options listing two plugins. -/
def optsC4 : Obj := [("plugins", Value.list [Value.str "p1", Value.str "p2"])]

/-- A collaborator environment whose `loadFiles` fails (the configured
config file does not exist). -/
def envC1 : Env :=
  ⟨[], fun _ => Except.error "missing config file", fun _ => [], Except.ok,
   fun _ => Except.ok (), fun _ => Except.ok ()⟩

/-- Caller options configuring a (missing) config file source. -/
def optsC1 : Obj := [("configSources", Value.list [Value.str "/nonexistent"])]

/-- The defaults source of the nested-mapping counterexample. -/
def defaultsC2 : Obj := [("a", Value.obj [("p", Value.num 1)])]

/-- The caller options of the nested-mapping counterexample. -/
def optsC2 : Obj :=
  [("a", Value.obj [("q", Value.num 2)]),
   ("configSources", Value.list [Value.str "cfg.yml"]),
   ("envPrefix", Value.str "LANDO_")]

/-- The file-sourced config of the nested-mapping counterexample. -/
def filesC2 : Obj := [("a", Value.obj [("r", Value.num 3)])]

/-- The env-sourced config of the nested-mapping counterexample. -/
def envsC2 : Obj := [("a", Value.obj [("s", Value.num 4)])]

/-- The collaborator environment of the nested-mapping counterexample. -/
def envC2 : Env :=
  ⟨defaultsC2, fun _ => Except.ok filesC2, fun _ => envsC2, Except.ok,
   fun _ => Except.ok (), fun _ => Except.ok ()⟩

/-- The merge of the first two counterexample sources. -/
def c1C2 : Obj :=
  [("a", Value.obj [("p", Value.num 1), ("q", Value.num 2)]),
   ("configSources", Value.list [Value.str "cfg.yml"]),
   ("envPrefix", Value.str "LANDO_")]

/-- The merge of the first three counterexample sources. -/
def c2C2 : Obj :=
  [("a", Value.obj [("p", Value.num 1), ("q", Value.num 2), ("r", Value.num 3)]),
   ("configSources", Value.list [Value.str "cfg.yml"]),
   ("envPrefix", Value.str "LANDO_")]

/-- The merge of all four counterexample sources. -/
def c3C2 : Obj :=
  [("a", Value.obj [("p", Value.num 1), ("q", Value.num 2),
                    ("r", Value.num 3), ("s", Value.num 4)]),
   ("configSources", Value.list [Value.str "cfg.yml"]),
   ("envPrefix", Value.str "LANDO_")]

/-- The flat-scalar defaults of the precedence example. -/
def defaultsC2w : Obj := [("a", Value.num 1), ("b", Value.num 1), ("d", Value.num 7)]

/-- The caller options of the precedence example. -/
def optsC2w : Obj :=
  [("b", Value.num 2),
   ("configSources", Value.list [Value.str "cfg.yml"]),
   ("envPrefix", Value.str "LANDO_")]

/-- The file-sourced config of the precedence example. -/
def filesC2w : Obj := [("c", Value.num 3)]

/-- The env-sourced config of the precedence example. -/
def envsC2w : Obj := [("a", Value.num 4)]

/-- The collaborator environment of the precedence example. -/
def envC2w : Env :=
  ⟨defaultsC2w, fun _ => Except.ok filesC2w, fun _ => envsC2w, Except.ok,
   fun _ => Except.ok (), fun _ => Except.ok ()⟩

/-- A collaborator environment whose `pre-bootstrap` handler H2 fails. -/
def envC5 : Env :=
  ⟨[], fun _ => Except.ok [], fun _ => [],
   fun _ => Except.error (BErr.eventHandler "pre-bootstrap" "H2"),
   fun _ => Except.ok (), fun _ => Except.ok ()⟩

/-- A defaults object seeding the identity from a fixed root, plus an
unrelated key. -/
def envC7a : Env :=
  ⟨[("userConfRoot", Value.str "/home/alice/.lando"), ("x", Value.num 1)],
   fun _ => Except.ok [], fun _ => [], Except.ok,
   fun _ => Except.ok (), fun _ => Except.ok ()⟩

/-- A second defaults object with the same root and no extra key. -/
def envC7b : Env :=
  ⟨[("userConfRoot", Value.str "/home/alice/.lando")],
   fun _ => Except.ok [], fun _ => [], Except.ok,
   fun _ => Except.ok (), fun _ => Except.ok ()⟩

/-- A collaborator environment whose `pre-bootstrap` handler injects a
plugin into the config. -/
def envC9 : Env :=
  ⟨[], fun _ => Except.ok [], fun _ => [],
   fun c => Except.ok (setKey c "plugins" (Value.list [Value.str "injected"])),
   fun _ => Except.ok (), fun _ => Except.ok ()⟩

/-- Lookup distributes over list append, preferring the left part. -/
theorem lookupObj_append (x y : Obj) (k : String) :
    lookupObj (x ++ y) k =
      match lookupObj x k with
      | some v => some v
      | none => lookupObj y k := by
  induction x with
  | nil => simp [lookupObj]
  | cons hd tl ih =>
    obtain ⟨k', v⟩ := hd
    by_cases hk : k' = k
    · simp [lookupObj, hk]
    · simp [lookupObj, hk, ih]

/-- Filtering with a predicate that accepts every entry keyed `k` does not
change the lookup of `k`. -/
theorem lookupObj_filter_true {p : String × Value → Bool} (b : Obj) (k : String)
    (h : ∀ v, p (k, v) = true) :
    lookupObj (b.filter p) k = lookupObj b k := by
  induction b with
  | nil => simp
  | cons hd tl ih =>
    obtain ⟨k', v⟩ := hd
    by_cases hk : k' = k
    · subst hk
      simp [List.filter, h v, lookupObj]
    · cases hp : p (k', v) with
      | true => simp [List.filter, hp, lookupObj, hk, ih]
      | false => simp [List.filter, hp, lookupObj, hk, ih]

/-- Lookup in the merged-entries part: present exactly for the keys of the
first object, with the matching entry of the second merged in. -/
theorem lookupObj_mergeEntries (a b : Obj) (k : String) :
    lookupObj (mergeEntries a b) k =
      match lookupObj a k with
      | some v =>
          some (match lookupObj b k with
                | some w => mergeVal v w
                | none => v)
      | none => none := by
  induction a with
  | nil => simp [mergeEntries, lookupObj]
  | cons hd tl ih =>
    obtain ⟨k', v⟩ := hd
    by_cases hk : k' = k
    · subst hk
      cases hb : lookupObj b k' with
      | none => simp [mergeEntries, mergeUnder, hb, lookupObj]
      | some w => simp [mergeEntries, mergeUnder, hb, lookupObj]
    · simp [mergeEntries, lookupObj, hk, ih]

/-- Master lookup law for the deep merge: the second object wins on key
collision (recursively for nested mappings), keys of only one side are
kept as-is. -/
theorem lookupObj_merge (a b : Obj) (k : String) :
    lookupObj (merge a b) k =
      match lookupObj a k, lookupObj b k with
      | some v, some w => some (mergeVal v w)
      | some v, none => some v
      | none, r => r := by
  unfold merge
  rw [lookupObj_append, lookupObj_mergeEntries]
  cases ha : lookupObj a k with
  | some v => cases hb : lookupObj b k <;> simp
  | none =>
    have hft : lookupObj (b.filter (fun p => (lookupObj a p.1).isNone)) k = lookupObj b k := by
      apply lookupObj_filter_true
      intro v
      simp [ha]
    simp [hft]

/-- Merging a non-mapping value on the right replaces whatever was on the
left. -/
theorem mergeVal_not_obj {v w : Value} (h : isObjVal w = false) :
    mergeVal v w = w := by
  cases v <;> cases w <;> simp_all [mergeVal, isObjVal]

/-- Merging onto an empty object yields the right object. -/
theorem merge_nil_left (b : Obj) : merge [] b = b := by
  simp [merge, mergeEntries, lookupObj, List.filter_true]

/-- Merging an empty object into any object leaves it unchanged. -/
theorem merge_nil_right (a : Obj) : merge a [] = a := by
  have h : ∀ x : Obj, mergeEntries x [] = x := by
    intro x
    induction x with
    | nil => simp [mergeEntries]
    | cons hd tl ih =>
      obtain ⟨k, v⟩ := hd
      simp [mergeEntries, lookupObj, mergeUnder, ih]
  simp [merge, h]

/-- Reading back the key just assigned. -/
theorem lookupObj_setKey_self (c : Obj) (k : String) (v : Value) :
    lookupObj (setKey c k v) k = some v := by
  induction c with
  | nil => simp [setKey, lookupObj]
  | cons hd tl ih =>
    obtain ⟨k', v'⟩ := hd
    by_cases hk : k' = k
    · simp [setKey, hk, lookupObj]
    · simp [setKey, hk, lookupObj, ih]

/-- Assignment leaves every other key unchanged. -/
theorem lookupObj_setKey_ne (c : Obj) (k k2 : String) (v : Value) (h : k ≠ k2) :
    lookupObj (setKey c k v) k2 = lookupObj c k2 := by
  induction c with
  | nil => simp [setKey, lookupObj, h]
  | cons hd tl ih =>
    obtain ⟨k', v'⟩ := hd
    by_cases hk : k' = k
    · simp [setKey, hk, lookupObj, h]
    · simp [setKey, hk, lookupObj, ih]

/-- A trace with no `p`-event is trivially ordered. -/
theorem orderedB_of_no_p {p q : Ev → Bool} {tr : List Ev}
    (h : tr.all (fun x => !(p x)) = true) : orderedB p q tr = true := by
  induction tr with
  | nil => simp [orderedB]
  | cons e tr ih =>
    simp only [List.all_cons, Bool.and_eq_true] at h
    simp [orderedB, ih h.2, h.2]

/-- A trace with no `q`-event is trivially ordered. -/
theorem orderedB_of_no_q {p q : Ev → Bool} {tr : List Ev}
    (h : tr.all (fun x => !(q x)) = true) : orderedB p q tr = true := by
  induction tr with
  | nil => simp [orderedB]
  | cons e tr ih =>
    simp only [List.all_cons, Bool.and_eq_true] at h
    simp [orderedB, ih h.2, h.1]

/-- Appending preserves orderedness when no `q`-event of the left part can
be followed by a `p`-event of the right part. -/
theorem orderedB_append {p q : Ev → Bool} {a b : List Ev}
    (ha : orderedB p q a = true) (hb : orderedB p q b = true)
    (hab : a.all (fun x => !(q x)) = true ∨ b.all (fun x => !(p x)) = true) :
    orderedB p q (a ++ b) = true := by
  induction a with
  | nil => simpa using hb
  | cons e a ih =>
    simp only [orderedB, Bool.and_eq_true, Bool.or_eq_true] at ha
    have hrest : orderedB p q (a ++ b) = true := by
      apply ih ha.2
      rcases hab with h1 | h1
      · left
        simp only [List.all_cons, Bool.and_eq_true] at h1
        exact h1.2
      · right
        exact h1
    simp only [List.cons_append, orderedB, Bool.and_eq_true]
    refine ⟨?_, hrest⟩
    cases hq : q e with
    | false => simp
    | true =>
      have hap : a.all (fun x => !(p x)) = true := by
        rcases ha.1 with h1 | h1
        · simp [hq] at h1
        · simpa using h1
      have hbp : b.all (fun x => !(p x)) = true := by
        rcases hab with h1 | h1
        · simp only [List.all_cons, Bool.and_eq_true] at h1
          simp [hq] at h1
        · exact h1
      simp [List.all_append, hap, hbp]

/-- An element on which `f` is false is not a member of a list on which `f`
is everywhere true. -/
theorem not_mem_of_all {α : Type} {tr : List α} {f : α → Bool} {e : α}
    (h : tr.all f = true) (he : f e = false) : e ∉ tr := by
  intro hmem
  rw [List.all_eq_true] at h
  have := h e hmem
  rw [he] at this
  exact Bool.noConfusion this

/-- The config-resolution stage only emits `loadFilesCall` / `loadEnvsCall`
events. -/
theorem mergedConfigT_trace_all (env : Env) (o : Obj) :
    ((mergedConfigT env o).2).all isCfgEv = true := by
  unfold mergedConfigT envStep
  by_cases h1 : jsIsEmpty (lookupObj (merge env.defaults o) "configSources") = true
  · by_cases h2 : hasKey (merge env.defaults o) "envPrefix" = true <;>
      simp [h1, h2, isCfgEv]
  · simp only [Bool.not_eq_true] at h1
    cases hf : env.loadFiles ((lookupObj (merge env.defaults o) "configSources").getD Value.null) with
    | error msg => simp [h1, hf, isCfgEv]
    | ok files =>
      by_cases h2 : hasKey (merge (merge env.defaults o) files) "envPrefix" = true <;>
        simp [h1, h2, hf, isCfgEv]

/-- Attaching the id does not change the trace of the config stage. -/
theorem resolvedConfigT_trace (env : Env) (o : Obj) :
    (resolvedConfigT env o).2 = (mergedConfigT env o).2 := by
  unfold resolvedConfigT
  cases h : mergedConfigT env o with
  | mk r t => cases r <;> simp

/-- A mapped list has no `f`-event when `f` rejects every image. -/
theorem all_map_not {α : Type} {f : Ev → Bool} {g : α → Ev} (ps : List α)
    (h : ∀ p, f (g p) = false) :
    (ps.map g).all (fun x => !(f x)) = true := by
  rw [List.all_eq_true]
  intro x hx
  rw [List.mem_map] at hx
  obtain ⟨p, _, rfl⟩ := hx
  simp [h p]

/-- A config-stage trace has no `f`-event when `f` rejects both config
events. -/
theorem all_not_of_cfg {t : List Ev} {f : Ev → Bool}
    (h : t.all isCfgEv = true)
    (h1 : f Ev.loadFilesCall = false) (h2 : f Ev.loadEnvsCall = false) :
    t.all (fun x => !(f x)) = true := by
  rw [List.all_eq_true] at h ⊢
  intro x hx
  have := h x hx
  cases x <;> simp_all [isCfgEv]

/-- Prepending a config-stage trace preserves orderedness whenever the
`q`-events are not config events. -/
theorem orderedB_cfg_front {p q : Ev → Bool} {t body : List Ev}
    (ht : t.all isCfgEv = true)
    (hq1 : q Ev.loadFilesCall = false) (hq2 : q Ev.loadEnvsCall = false)
    (hb : orderedB p q body = true) :
    orderedB p q (t ++ body) = true := by
  have htq := all_not_of_cfg ht hq1 hq2
  exact orderedB_append (orderedB_of_no_q htq) hb (Or.inl htq)

/-- The load step produces no lifecycle-event markers. -/
theorem mapLoadTrace_all_not {f : Ev → Bool} (ps : List Value)
    (h1 : ∀ p, f (Ev.loadStart p) = false) (h2 : ∀ p, f (Ev.loadEnd p) = false) :
    (mapLoadTrace ps).all (fun x => !(f x)) = true := by
  unfold mapLoadTrace
  rw [List.all_append]
  simp only [Bool.and_eq_true]
  exact ⟨all_map_not ps h1, all_map_not ps h2⟩

/-- The events of the `afterPre` stage all satisfy the given predicate
complement when the predicate rejects load, post and return events. -/
theorem afterPre_all_not {f : Ev → Bool} (env : Env) (c2 : Obj)
    (h1 : ∀ p, f (Ev.loadStart p) = false) (h2 : ∀ p, f (Ev.loadEnd p) = false)
    (h3 : f Ev.emitPost = false) (h4 : f Ev.postDone = false)
    (h5 : f Ev.ret = false) :
    ((afterPre env c2).2).all (fun x => !(f x)) = true := by
  have hmap : (mapLoadTrace (pluginList c2)).all (fun x => !(f x)) = true :=
    mapLoadTrace_all_not _ h1 h2
  unfold afterPre
  cases hfl : firstLoadError env (pluginList c2) with
  | some e => exact hmap
  | none =>
    cases hpost : env.postHandlers c2 with
    | error e =>
      rw [List.all_append]
      simp [hmap, h3]
    | ok u =>
      rw [List.all_append]
      simp [hmap, h3, h4, h5]

/-- The trace of a bootstrap body, once `pre-bootstrap` succeeded, is the
fixed prefix followed by the `afterPre` trace. -/
theorem bodyAfterConfig_ok_trace (env : Env) (c c2 : Obj)
    (hpre : env.preHandlers c = Except.ok c2) :
    (bodyAfterConfig env c).2
      = [Ev.buildInstance, Ev.emitPre, Ev.preDone] ++ (afterPre env c2).2 := by
  unfold bodyAfterConfig
  rw [hpre]

/-- In the body of a bootstrap run the `pre-bootstrap` emission precedes
every plugin-load start. -/
theorem bodyAfterConfig_emitPre_before_loads (env : Env) (c : Obj) :
    orderedB isEmitPre isLoadStart (bodyAfterConfig env c).2 = true := by
  unfold bodyAfterConfig
  cases hpre : env.preHandlers c with
  | error e => rfl
  | ok c2 =>
    have hB : ((afterPre env c2).2).all (fun x => !(isEmitPre x)) = true :=
      afterPre_all_not env c2 (fun p => rfl) (fun p => rfl) rfl rfl rfl
    exact orderedB_append rfl (orderedB_of_no_p hB) (Or.inl rfl)

/-- In the body of a bootstrap run the `pre-bootstrap` handlers complete
before every plugin-load start. -/
theorem bodyAfterConfig_preDone_before_loads (env : Env) (c : Obj) :
    orderedB isPreDone isLoadStart (bodyAfterConfig env c).2 = true := by
  unfold bodyAfterConfig
  cases hpre : env.preHandlers c with
  | error e => rfl
  | ok c2 =>
    have hB : ((afterPre env c2).2).all (fun x => !(isPreDone x)) = true :=
      afterPre_all_not env c2 (fun p => rfl) (fun p => rfl) rfl rfl rfl
    exact orderedB_append rfl (orderedB_of_no_p hB) (Or.inl rfl)

/-- In the `afterPre` stage every plugin-load completion precedes the
`post-bootstrap` emission. -/
theorem afterPre_loads_before_post (env : Env) (c2 : Obj) :
    orderedB isLoadEnd isEmitPost (afterPre env c2).2 = true := by
  have hmapq : (mapLoadTrace (pluginList c2)).all (fun x => !(isEmitPost x)) = true :=
    mapLoadTrace_all_not _ (fun p => rfl) (fun p => rfl)
  unfold afterPre
  cases hfl : firstLoadError env (pluginList c2) with
  | some e => exact orderedB_of_no_q hmapq
  | none =>
    cases hpost : env.postHandlers c2 with
    | error e => exact orderedB_append (orderedB_of_no_q hmapq) rfl (Or.inl hmapq)
    | ok u => exact orderedB_append (orderedB_of_no_q hmapq) rfl (Or.inl hmapq)

/-- In the body of a bootstrap run every plugin-load completion precedes
the `post-bootstrap` emission. -/
theorem bodyAfterConfig_loads_before_post (env : Env) (c : Obj) :
    orderedB isLoadEnd isEmitPost (bodyAfterConfig env c).2 = true := by
  unfold bodyAfterConfig
  cases hpre : env.preHandlers c with
  | error e => rfl
  | ok c2 =>
    exact orderedB_append (orderedB_of_no_q rfl) (afterPre_loads_before_post env c2)
      (Or.inl rfl)

/-- In the `afterPre` stage the instance is returned only after the
`post-bootstrap` handlers complete. -/
theorem afterPre_postDone_before_ret (env : Env) (c2 : Obj) :
    orderedB isPostDone isRet (afterPre env c2).2 = true := by
  have hmapq : (mapLoadTrace (pluginList c2)).all (fun x => !(isRet x)) = true :=
    mapLoadTrace_all_not _ (fun p => rfl) (fun p => rfl)
  have hmapp : (mapLoadTrace (pluginList c2)).all (fun x => !(isPostDone x)) = true :=
    mapLoadTrace_all_not _ (fun p => rfl) (fun p => rfl)
  unfold afterPre
  cases hfl : firstLoadError env (pluginList c2) with
  | some e => exact orderedB_of_no_q hmapq
  | none =>
    cases hpost : env.postHandlers c2 with
    | error e => exact orderedB_append (orderedB_of_no_p hmapp) rfl (Or.inl hmapq)
    | ok u => exact orderedB_append (orderedB_of_no_p hmapp) rfl (Or.inl hmapq)

/-- In the body of a bootstrap run the instance is returned only after the
`post-bootstrap` handlers complete. -/
theorem bodyAfterConfig_postDone_before_ret (env : Env) (c : Obj) :
    orderedB isPostDone isRet (bodyAfterConfig env c).2 = true := by
  unfold bodyAfterConfig
  cases hpre : env.preHandlers c with
  | error e => rfl
  | ok c2 =>
    exact orderedB_append (orderedB_of_no_q rfl) (afterPre_postDone_before_ret env c2)
      (Or.inl rfl)

/-- C3: in every bootstrap run the `pre-bootstrap` event is emitted and
fully completed before any plugin is loaded, all plugin loads complete
before `post-bootstrap` is emitted, and the Instance is produced (the
promise is fulfilled) only after the `post-bootstrap` handlers complete. -/
theorem C3_lifecycle_order (env : Env) (opts : Obj) :
    orderedB isEmitPre isLoadStart (bootstrapBody env opts).2 = true ∧
    orderedB isPreDone isLoadStart (bootstrapBody env opts).2 = true ∧
    orderedB isLoadEnd isEmitPost (bootstrapBody env opts).2 = true ∧
    orderedB isPostDone isRet (bootstrapBody env opts).2 = true ∧
    (∀ l, (bootstrapBody env opts).1 = Outcome.promise (Except.ok l) →
        Ev.postDone ∈ (bootstrapBody env opts).2) := by
  have htr : ((resolvedConfigT env opts).2).all isCfgEv = true := by
    rw [resolvedConfigT_trace]
    exact mergedConfigT_trace_all env opts
  cases hr : resolvedConfigT env opts with
  | mk r t =>
    rw [hr] at htr
    cases r with
    | error e =>
      simp only [bootstrapBody, hr]
      refine ⟨?_, ?_, ?_, ?_, ?_⟩
      · exact orderedB_of_no_q (all_not_of_cfg htr rfl rfl)
      · exact orderedB_of_no_q (all_not_of_cfg htr rfl rfl)
      · exact orderedB_of_no_q (all_not_of_cfg htr rfl rfl)
      · exact orderedB_of_no_q (all_not_of_cfg htr rfl rfl)
      · intro l h
        exact absurd h (by simp)
    | ok c =>
      simp only [bootstrapBody, hr]
      refine ⟨?_, ?_, ?_, ?_, ?_⟩
      · exact orderedB_cfg_front htr rfl rfl (bodyAfterConfig_emitPre_before_loads env c)
      · exact orderedB_cfg_front htr rfl rfl (bodyAfterConfig_preDone_before_loads env c)
      · exact orderedB_cfg_front htr rfl rfl (bodyAfterConfig_loads_before_post env c)
      · exact orderedB_cfg_front htr rfl rfl (bodyAfterConfig_postDone_before_ret env c)
      · intro l h
        simp only [Outcome.promise.injEq] at h
        rw [List.mem_append]
        right
        unfold bodyAfterConfig at h ⊢
        cases hpre : env.preHandlers c with
        | error e =>
          simp only [hpre] at h
          exact absurd h (by simp)
        | ok c2 =>
          simp only [hpre] at h ⊢
          unfold afterPre at h ⊢
          cases hfl : firstLoadError env (pluginList c2) with
          | some e =>
            simp only [hfl] at h
            exact absurd h (by simp)
          | none =>
            simp only [hfl] at h ⊢
            cases hpost : env.postHandlers c2 with
            | error e =>
              simp only [hpost] at h
              exact absurd h (by simp)
            | ok u =>
              simp only [hpost]
              simp [List.mem_append]

/-- The bootstrap body when `pre-bootstrap` fails: the promise is rejected
with that error right after the instance was built and the emission
attempted. -/
theorem bootstrapBody_pre_error (env : Env) (opts c : Obj) (e : BErr)
    (hc : (resolvedConfigT env opts).1 = Except.ok c)
    (hpre : env.preHandlers c = Except.error e) :
    bootstrapBody env opts
      = (Outcome.promise (Except.error e),
         (resolvedConfigT env opts).2 ++ [Ev.buildInstance, Ev.emitPre]) := by
  cases hr : resolvedConfigT env opts with
  | mk r t =>
    rw [hr] at hc
    simp only at hc
    subst hc
    simp only [bootstrapBody, hr, bodyAfterConfig, hpre]

/-- C5: if the `pre-bootstrap` emission fails, no plugin is loaded,
`post-bootstrap` is not emitted, and the very failure of the emission is
the overall outcome surfaced to the caller. -/
theorem C5_pre_failure_aborts (env : Env) (opts c : Obj) (e : BErr)
    (hc : (resolvedConfigT env opts).1 = Except.ok c)
    (hpre : env.preHandlers c = Except.error e) :
    (bootstrapBody env opts).1 = Outcome.promise (Except.error e) ∧
    (∀ p, Ev.loadStart p ∉ (bootstrapBody env opts).2) ∧
    Ev.emitPost ∉ (bootstrapBody env opts).2 := by
  have htr : ((resolvedConfigT env opts).2).all isCfgEv = true := by
    rw [resolvedConfigT_trace]
    exact mergedConfigT_trace_all env opts
  rw [bootstrapBody_pre_error env opts c e hc hpre]
  refine ⟨rfl, ?_, ?_⟩
  · intro p
    rw [List.mem_append]
    rintro (h | h)
    · exact absurd h (not_mem_of_all htr rfl)
    · simp at h
  · rw [List.mem_append]
    rintro (h | h)
    · exact absurd h (not_mem_of_all htr rfl)
    · simp at h

/-- C6: if loading the configured config files fails, bootstrap throws the
`ConfigLoadError` naming the config stage and the Instance is never built
(the whole merge is abandoned, nothing partial survives). -/
theorem C6_config_load_failure (env : Env) (opts : Obj) (msg : String)
    (hs : jsIsEmpty (lookupObj (merge env.defaults opts) "configSources") = false)
    (hf : env.loadFiles ((lookupObj (merge env.defaults opts) "configSources").getD Value.null)
        = Except.error msg) :
    (bootstrapBody env opts).1 = Outcome.thrown (BErr.configLoad msg) ∧
    Ev.buildInstance ∉ (bootstrapBody env opts).2 := by
  have hm : mergedConfigT env opts
      = (Except.error (BErr.configLoad msg), [Ev.loadFilesCall]) := by
    unfold mergedConfigT
    simp only [hs, hf]
    simp
  have hres : resolvedConfigT env opts
      = (Except.error (BErr.configLoad msg), [Ev.loadFilesCall]) := by
    unfold resolvedConfigT
    rw [hm]
  have hb : bootstrapBody env opts
      = (Outcome.thrown (BErr.configLoad msg), [Ev.loadFilesCall]) := by
    simp only [bootstrapBody, hres]
  rw [hb]
  exact ⟨rfl, by simp⟩

/-- A list with no `f`-element filters to the empty list. -/
theorem filter_eq_nil_of_all {α : Type} {t : List α} {f : α → Bool}
    (h : t.all (fun x => !(f x)) = true) : t.filter f = [] := by
  induction t with
  | nil => rfl
  | cons e t ih =>
    simp only [List.all_cons, Bool.and_eq_true] at h
    have he : f e = false := by
      cases hfe : f e
      · rfl
      · rw [hfe] at h
        simp at h
    simp [List.filter, he, ih h.2]

/-- The body of a bootstrap run emits no config-stage events. -/
theorem bodyAfterConfig_no_cfg (env : Env) (c : Obj) :
    ((bodyAfterConfig env c).2).all (fun x => !(isCfgEv x)) = true := by
  unfold bodyAfterConfig
  cases hpre : env.preHandlers c with
  | error e => rfl
  | ok c2 =>
    rw [List.all_append]
    simp only [Bool.and_eq_true]
    exact ⟨rfl, afterPre_all_not env c2 (fun p => rfl) (fun p => rfl) rfl rfl rfl⟩

/-- When `configSources` is empty the config stage is just the env step. -/
theorem mergedConfigT_empty (env : Env) (opts : Obj)
    (hg : jsIsEmpty (lookupObj (merge env.defaults opts) "configSources") = true) :
    mergedConfigT env opts
      = (Except.ok (envStep env (merge env.defaults opts)).1,
         (envStep env (merge env.defaults opts)).2) := by
  unfold mergedConfigT
  simp only [hg]
  simp

/-- The env step never calls `loadFiles`. -/
theorem envStep_trace_no_files (env : Env) (c : Obj) :
    Ev.loadFilesCall ∉ (envStep env c).2 := by
  unfold envStep
  by_cases h : hasKey c "envPrefix" = true <;> simp [h]

/-- When `configSources` is non-empty the config stage records the
`loadFiles` invocation. -/
theorem mergedConfigT_files_mem (env : Env) (opts : Obj)
    (hg : jsIsEmpty (lookupObj (merge env.defaults opts) "configSources") = false) :
    Ev.loadFilesCall ∈ (mergedConfigT env opts).2 := by
  unfold mergedConfigT
  simp only [hg]
  cases hf : env.loadFiles ((lookupObj (merge env.defaults opts) "configSources").getD Value.null) with
  | error msg => simp
  | ok files => simp

/-- C8: file-sourced config is loaded exactly when `configSources` is
present and non-empty; when it is empty or absent, `loadFiles` is never
invoked and the whole bootstrap outcome is independent of the `loadFiles`
collaborator. -/
theorem C8_configSources_gate (env : Env) (opts : Obj) :
    (jsIsEmpty (lookupObj (merge env.defaults opts) "configSources") = false ↔
        Ev.loadFilesCall ∈ (bootstrapBody env opts).2) ∧
    (jsIsEmpty (lookupObj (merge env.defaults opts) "configSources") = true →
        ∀ lf, bootstrapBody
            ⟨env.defaults, lf, env.loadEnvs, env.preHandlers, env.loadPlugin, env.postHandlers⟩ opts
          = bootstrapBody env opts) := by
  constructor
  · constructor
    · intro hg
      have hmem := mergedConfigT_files_mem env opts hg
      rw [← resolvedConfigT_trace] at hmem
      cases hr : resolvedConfigT env opts with
      | mk r t =>
        rw [hr] at hmem
        cases r with
        | error e =>
          simp only [bootstrapBody, hr]
          exact hmem
        | ok c =>
          simp only [bootstrapBody, hr]
          rw [List.mem_append]
          exact Or.inl hmem
    · intro hmem
      cases hg : jsIsEmpty (lookupObj (merge env.defaults opts) "configSources") with
      | false => rfl
      | true =>
        exfalso
        have hm := mergedConfigT_empty env opts hg
        have ht : (resolvedConfigT env opts).2 = (envStep env (merge env.defaults opts)).2 := by
          rw [resolvedConfigT_trace, hm]
        cases hr : resolvedConfigT env opts with
        | mk r t =>
          rw [hr] at ht
          simp only at ht
          cases r with
          | error e =>
            simp only [bootstrapBody, hr] at hmem
            rw [ht] at hmem
            exact envStep_trace_no_files env _ hmem
          | ok c =>
            simp only [bootstrapBody, hr] at hmem
            rw [List.mem_append] at hmem
            rcases hmem with h | h
            · rw [ht] at h
              exact envStep_trace_no_files env _ h
            · exact absurd h (not_mem_of_all (bodyAfterConfig_no_cfg env c) rfl)
  · intro hg lf
    have h1 : mergedConfigT
        ⟨env.defaults, lf, env.loadEnvs, env.preHandlers, env.loadPlugin, env.postHandlers⟩ opts
        = mergedConfigT env opts := by
      have ha := mergedConfigT_empty
        ⟨env.defaults, lf, env.loadEnvs, env.preHandlers, env.loadPlugin, env.postHandlers⟩ opts hg
      have hb := mergedConfigT_empty env opts hg
      rw [ha, hb]
      rfl
    have h2 : resolvedConfigT
        ⟨env.defaults, lf, env.loadEnvs, env.preHandlers, env.loadPlugin, env.postHandlers⟩ opts
        = resolvedConfigT env opts := by
      unfold resolvedConfigT
      rw [h1]
    unfold bootstrapBody
    rw [h2]
    cases hres : resolvedConfigT env opts with
    | mk r t =>
      cases r with
      | error e => rfl
      | ok c => rfl

/-- The `.map` step keeps exactly the load starts, in plugin-list order. -/
theorem filter_mapLoadTrace (ps : List Value) :
    (mapLoadTrace ps).filter isLoadStart = ps.map Ev.loadStart := by
  unfold mapLoadTrace
  rw [List.filter_append]
  have h1 : (ps.map Ev.loadStart).filter isLoadStart = ps.map Ev.loadStart := by
    rw [List.filter_eq_self]
    intro a ha
    rw [List.mem_map] at ha
    obtain ⟨p, _, rfl⟩ := ha
    rfl
  have h2 : (ps.map Ev.loadEnd).filter isLoadStart = [] :=
    filter_eq_nil_of_all (all_map_not ps (fun p => rfl))
  rw [h1, h2, List.append_nil]

/-- After `pre-bootstrap`, the load starts of the run are exactly the
plugin list of the handler-mutated config, in order. -/
theorem afterPre_filter_loadStart (env : Env) (c2 : Obj) :
    ((afterPre env c2).2).filter isLoadStart = (pluginList c2).map Ev.loadStart := by
  unfold afterPre
  cases hfl : firstLoadError env (pluginList c2) with
  | some e => exact filter_mapLoadTrace _
  | none =>
    cases hpost : env.postHandlers c2 with
    | error e =>
      rw [List.filter_append, filter_mapLoadTrace]
      simp [List.filter, isLoadStart]
    | ok u =>
      rw [List.filter_append, filter_mapLoadTrace]
      simp [List.filter, isLoadStart]

/-- The load starts of a run whose `pre-bootstrap` emission succeeded are
exactly the plugin list of the handler-mutated config, in list order. -/
theorem bootstrapBody_filter_loadStart (env : Env) (opts c c2 : Obj)
    (hc : (resolvedConfigT env opts).1 = Except.ok c)
    (hpre : env.preHandlers c = Except.ok c2) :
    ((bootstrapBody env opts).2).filter isLoadStart = (pluginList c2).map Ev.loadStart := by
  have htr : ((resolvedConfigT env opts).2).all isCfgEv = true := by
    rw [resolvedConfigT_trace]
    exact mergedConfigT_trace_all env opts
  cases hr : resolvedConfigT env opts with
  | mk r t =>
    rw [hr] at htr hc
    simp only at hc htr
    subst hc
    simp only [bootstrapBody, hr]
    rw [List.filter_append]
    have ht : t.filter isLoadStart = [] :=
      filter_eq_nil_of_all (all_not_of_cfg htr rfl rfl)
    rw [ht, bodyAfterConfig_ok_trace env c c2 hpre, List.filter_append]
    rw [afterPre_filter_loadStart]
    rfl

/-- C9: the plugin list that is loaded is read from the config only after
the `pre-bootstrap` emission completed, so the loads are exactly the
entries of the (possibly handler-mutated) config's plugin list, in order. -/
theorem C9_plugins_read_after_pre (env : Env) (opts c c2 : Obj)
    (hc : (resolvedConfigT env opts).1 = Except.ok c)
    (hpre : env.preHandlers c = Except.ok c2) :
    ((bootstrapBody env opts).2).filter isLoadStart = (pluginList c2).map Ev.loadStart :=
  bootstrapBody_filter_loadStart env opts c c2 hc hpre

/-- An absent or falsy `plugins` property yields the empty plugin list. -/
theorem pluginList_nil_of_absent_or_falsy {c : Obj}
    (h : lookupObj c "plugins" = none ∨
         ∃ v, lookupObj c "plugins" = some v ∧ jsFalsy v = true) :
    pluginList c = [] := by
  unfold pluginList
  rcases h with h | ⟨v, h, hv⟩
  · rw [h]
  · rw [h]
    cases v with
    | list l => simp [jsFalsy] at hv
    | null => rfl
    | bool b => rfl
    | num n => rfl
    | str s => rfl
    | obj o => rfl

/-- C10: when the resolved config has no `plugins` key (or a falsy value),
no plugin load is attempted, this is not an error, and the run still emits
`post-bootstrap` and completes with the Instance. -/
theorem C10_absent_plugins_ok (env : Env) (opts c c2 : Obj)
    (hc : (resolvedConfigT env opts).1 = Except.ok c)
    (hpre : env.preHandlers c = Except.ok c2)
    (hpl : lookupObj c2 "plugins" = none ∨
           ∃ v, lookupObj c2 "plugins" = some v ∧ jsFalsy v = true)
    (hpost : env.postHandlers c2 = Except.ok ()) :
    (bootstrapBody env opts).1 = Outcome.promise (Except.ok ⟨c2⟩) ∧
    (∀ p, Ev.loadStart p ∉ (bootstrapBody env opts).2) ∧
    Ev.emitPost ∈ (bootstrapBody env opts).2 := by
  have hnil := pluginList_nil_of_absent_or_falsy hpl
  have hap : afterPre env c2 = (Except.ok ⟨c2⟩, [Ev.emitPost, Ev.postDone, Ev.ret]) := by
    unfold afterPre
    rw [hnil]
    simp [firstLoadError, hpost, mapLoadTrace]
  have hbd : bodyAfterConfig env c
      = (Except.ok ⟨c2⟩,
         [Ev.buildInstance, Ev.emitPre, Ev.preDone, Ev.emitPost, Ev.postDone, Ev.ret]) := by
    unfold bodyAfterConfig
    simp only [hpre]
    rw [hap]
    rfl
  have htr : ((resolvedConfigT env opts).2).all isCfgEv = true := by
    rw [resolvedConfigT_trace]
    exact mergedConfigT_trace_all env opts
  cases hr : resolvedConfigT env opts with
  | mk r t =>
    rw [hr] at htr hc
    simp only at hc htr
    subst hc
    have hbb : bootstrapBody env opts
        = (Outcome.promise (Except.ok ⟨c2⟩),
           t ++ [Ev.buildInstance, Ev.emitPre, Ev.preDone, Ev.emitPost, Ev.postDone, Ev.ret]) := by
      simp only [bootstrapBody, hr, hbd]
    rw [hbb]
    refine ⟨rfl, ?_, ?_⟩
    · intro p
      rw [List.mem_append]
      rintro (h | h)
      · exact absurd h (not_mem_of_all htr rfl)
      · simp at h
    · rw [List.mem_append]
      right
      simp

/-- A successfully resolved config is the id-attached merged config. -/
theorem resolvedConfigT_ok (env : Env) (opts : Obj) (c : Obj)
    (hc : (resolvedConfigT env opts).1 = Except.ok c) :
    ∃ m, (mergedConfigT env opts).1 = Except.ok m ∧ c = attachId m := by
  unfold resolvedConfigT at hc
  cases hm : mergedConfigT env opts with
  | mk r t =>
    rw [hm] at hc
    cases r with
    | error e => simp at hc
    | ok m =>
      simp only at hc
      simp at hc
      exact ⟨m, rfl, hc.symm⟩

/-- C7: the id attached to the resolved config is a deterministic, pure
function of the resolved `userConfRoot` seed: two runs agreeing on the
seed agree on the id; and distinct sample paths receive distinct hashes. -/
theorem C7_identity_deterministic :
    (∀ env1 env2 o1 o2 c1 c2,
        (resolvedConfigT env1 o1).1 = Except.ok c1 →
        (resolvedConfigT env2 o2).1 = Except.ok c2 →
        lookupObj c1 "userConfRoot" = lookupObj c2 "userConfRoot" →
        lookupObj c1 "id" = lookupObj c2 "id") ∧
    hasher (some (Value.str "/home/alice")) ≠ hasher (some (Value.str "/home/bob")) := by
  constructor
  · intro env1 env2 o1 o2 c1 c2 h1 h2 hroot
    obtain ⟨m1, hm1, rfl⟩ := resolvedConfigT_ok env1 o1 c1 h1
    obtain ⟨m2, hm2, rfl⟩ := resolvedConfigT_ok env2 o2 c2 h2
    unfold attachId at hroot
    rw [lookupObj_setKey_ne _ _ _ _ (by decide), lookupObj_setKey_ne _ _ _ _ (by decide)] at hroot
    unfold attachId
    rw [lookupObj_setKey_self, lookupObj_setKey_self, hroot]
  · decide

/-- In the `afterPre` stage every plugin-load start precedes every
plugin-load completion (all loads are initiated before any settles:
Bluebird `.map` with unbounded concurrency). -/
theorem afterPre_starts_before_ends (env : Env) (c2 : Obj) :
    orderedB isLoadStart isLoadEnd (afterPre env c2).2 = true := by
  have hS : ((pluginList c2).map Ev.loadStart).all (fun x => !(isLoadEnd x)) = true :=
    all_map_not _ (fun p => rfl)
  have hE : ((pluginList c2).map Ev.loadEnd).all (fun x => !(isLoadStart x)) = true :=
    all_map_not _ (fun p => rfl)
  have hSE : orderedB isLoadStart isLoadEnd (mapLoadTrace (pluginList c2)) = true := by
    unfold mapLoadTrace
    exact orderedB_append (orderedB_of_no_q hS) (orderedB_of_no_p hE) (Or.inl hS)
  unfold afterPre
  cases hfl : firstLoadError env (pluginList c2) with
  | some e => exact hSE
  | none =>
    cases hpost : env.postHandlers c2 with
    | error e => exact orderedB_append hSE (orderedB_of_no_p rfl) (Or.inr rfl)
    | ok u => exact orderedB_append hSE (orderedB_of_no_p rfl) (Or.inr rfl)

/-- In every bootstrap run, every plugin-load start precedes every
plugin-load completion. -/
theorem bootstrapBody_starts_before_ends (env : Env) (opts : Obj) :
    orderedB isLoadStart isLoadEnd (bootstrapBody env opts).2 = true := by
  have htr : ((resolvedConfigT env opts).2).all isCfgEv = true := by
    rw [resolvedConfigT_trace]
    exact mergedConfigT_trace_all env opts
  cases hr : resolvedConfigT env opts with
  | mk r t =>
    rw [hr] at htr
    cases r with
    | error e =>
      simp only [bootstrapBody, hr]
      exact orderedB_of_no_q (all_not_of_cfg htr rfl rfl)
    | ok c =>
      simp only [bootstrapBody, hr]
      refine orderedB_cfg_front htr rfl rfl ?_
      unfold bodyAfterConfig
      cases hpre : env.preHandlers c with
      | error e => rfl
      | ok c2 =>
        exact orderedB_append (orderedB_of_no_q rfl) (afterPre_starts_before_ends env c2)
          (Or.inl rfl)

/-- C4 (amended): the Plugin Loader is invoked for the plugin-list entries
in list order — the recorded load starts are exactly the list, in order —
but the loads are not serialised: every load is initiated before any load
completes (Bluebird `.map` runs the mapper with unbounded concurrency), so
a later entry's registration begins before an earlier entry's completes. -/
theorem C4_loads_started_in_order (env : Env) (opts c c2 : Obj)
    (hc : (resolvedConfigT env opts).1 = Except.ok c)
    (hpre : env.preHandlers c = Except.ok c2) :
    ((bootstrapBody env opts).2).filter isLoadStart = (pluginList c2).map Ev.loadStart ∧
    orderedB isLoadStart isLoadEnd (bootstrapBody env opts).2 = true :=
  ⟨bootstrapBody_filter_loadStart env opts c c2 hc hpre,
   bootstrapBody_starts_before_ends env opts⟩

/-- The run of `bootstrap` on `envC4` / `optsC4`, evaluated. -/
theorem runC4_eq :
    bootstrapBody envC4 optsC4
      = (Outcome.promise (Except.ok
          ⟨[("plugins", Value.list [Value.str "p1", Value.str "p2"]),
            ("id", Value.num 0)]⟩),
         [Ev.buildInstance, Ev.emitPre, Ev.preDone,
          Ev.loadStart (Value.str "p1"), Ev.loadStart (Value.str "p2"),
          Ev.loadEnd (Value.str "p1"), Ev.loadEnd (Value.str "p2"),
          Ev.emitPost, Ev.postDone, Ev.ret]) := by
  simp [bootstrapBody, resolvedConfigT, mergedConfigT, envStep, merge_nil_left,
        optsC4, envC4, attachId, hasher, lookupObj, setKey, jsIsEmpty, hasKey,
        bodyAfterConfig, afterPre, pluginList, firstLoadError, mapLoadTrace,
        List.findSome?]

/-- C4 (counterexample): in the two-plugin run both loads are invoked, yet
the first plugin's registration does not complete before the second one's
begins — the claimed sequentiality fails on the Bluebird `.map` step. -/
theorem C4_counterexample :
    Ev.loadStart (Value.str "p1") ∈ (bootstrapBody envC4 optsC4).2 ∧
    Ev.loadStart (Value.str "p2") ∈ (bootstrapBody envC4 optsC4).2 ∧
    loadsSequentialB (bootstrapBody envC4 optsC4).2 ["p1", "p2"] = false := by
  rw [runC4_eq]
  refine ⟨by simp, by simp, by decide⟩

/-- C1 (amended): `_.once` never re-runs any bootstrap step — the second
call's trace is empty — and when the first call returned (the fulfilled or
rejected promise was produced and cached), the second call returns exactly
that cached outcome.  (When the first call threw synchronously, lodash
`before` cached nothing, so the second call returns `undefined` instead of
the failure; see the counterexample.) -/
theorem C1_run_once_amended (env : Env) (o1 o2 : Obj) :
    (bootstrapCall env ((bootstrapCall env onceInit o1).2.2) o2).2.1 = [] ∧
    (∀ pr, (bootstrapCall env onceInit o1).1 = Except.ok (some pr) →
        (bootstrapCall env ((bootstrapCall env onceInit o1).2.2) o2).1
          = Except.ok (some pr)) := by
  cases hb : bootstrapBody env o1 with
  | mk out t =>
    cases out with
    | thrown e =>
      have h1 : bootstrapCall env onceInit o1
          = (Except.error e, t, ⟨1, none⟩) := by
        unfold bootstrapCall onceInit
        rw [hb]
        norm_num
      have h2 : bootstrapCall env ⟨1, none⟩ o2
          = (Except.ok none, [], ⟨0, none⟩) := by
        unfold bootstrapCall
        norm_num
      simp only [h1]
      simp only [h2]
      refine ⟨trivial, ?_⟩
      intro pr hpr
      simp at hpr
    | promise r =>
      have h1 : bootstrapCall env onceInit o1
          = (Except.ok (some r), t, ⟨1, some r⟩) := by
        unfold bootstrapCall onceInit
        rw [hb]
        norm_num
      have h2 : bootstrapCall env ⟨1, some r⟩ o2
          = (Except.ok (some r), [], ⟨0, some r⟩) := by
        unfold bootstrapCall
        norm_num
      simp only [h1]
      simp only [h2]
      refine ⟨trivial, ?_⟩
      intro pr hpr
      simp only [Except.ok.injEq, Option.some.injEq] at hpr
      rw [hpr]

/-- C1 (counterexample): when the first invocation fails with a synchronous
`ConfigLoadError` throw, the second invocation does not return that
already-produced failure: lodash `before` never cached a result, so the
second call returns `undefined`, a different outcome. -/
theorem C1_counterexample :
    (bootstrapCall envC1 onceInit optsC1).1
      = Except.error (BErr.configLoad "missing config file") ∧
    (bootstrapCall envC1 ((bootstrapCall envC1 onceInit optsC1).2.2) optsC1).1
      = Except.ok none ∧
    (bootstrapCall envC1 ((bootstrapCall envC1 onceInit optsC1).2.2) optsC1).1
      ≠ (bootstrapCall envC1 onceInit optsC1).1 := by
  have hb : bootstrapBody envC1 optsC1
      = (Outcome.thrown (BErr.configLoad "missing config file"), [Ev.loadFilesCall]) := by
    simp [bootstrapBody, resolvedConfigT, mergedConfigT, merge_nil_left, envC1,
          optsC1, lookupObj, jsIsEmpty]
  have h1 : bootstrapCall envC1 onceInit optsC1
      = (Except.error (BErr.configLoad "missing config file"), [Ev.loadFilesCall], ⟨1, none⟩) := by
    unfold bootstrapCall onceInit
    rw [hb]
    norm_num
  have h2 : bootstrapCall envC1 ⟨1, none⟩ optsC1
      = (Except.ok none, [], ⟨0, none⟩) := by
    unfold bootstrapCall
    norm_num
  simp only [h1]
  simp only [h2]
  refine ⟨trivial, trivial, by simp⟩

/-- When all four config sources are present, the config stage resolves to
the left-to-right deep merge defaults < options < files < env. -/
theorem mergedConfigT_all_sources (env : Env) (opts files envs : Obj)
    (hfiles : env.loadFiles
        ((lookupObj (merge env.defaults opts) "configSources").getD Value.null)
        = Except.ok files)
    (henvs : ∀ v, env.loadEnvs v = envs)
    (hgate1 : jsIsEmpty (lookupObj (merge env.defaults opts) "configSources") = false)
    (hgate2 : hasKey (merge (merge env.defaults opts) files) "envPrefix" = true) :
    (mergedConfigT env opts).1
        = Except.ok (merge (merge (merge env.defaults opts) files) envs) := by
  unfold mergedConfigT envStep
  simp only [hgate1, hfiles, hgate2, henvs]
  simp

/-- C2 (amended): with all four sources present, the resolved config is
the left-to-right deep merge defaults < options < files < env.  A key
whose env-sourced value is not a nested mapping resolves to the env value
(non-mappings replace wholesale); a key present only in the defaults keeps
the defaults value.  (When both values are nested mappings they merge
recursively with the env entries winning; see the counterexample.) -/
theorem C2_merge_precedence (env : Env) (opts files envs : Obj) (k : String)
    (hfiles : env.loadFiles
        ((lookupObj (merge env.defaults opts) "configSources").getD Value.null)
        = Except.ok files)
    (henvs : ∀ v, env.loadEnvs v = envs)
    (hgate1 : jsIsEmpty (lookupObj (merge env.defaults opts) "configSources") = false)
    (hgate2 : hasKey (merge (merge env.defaults opts) files) "envPrefix" = true) :
    (mergedConfigT env opts).1
        = Except.ok (merge (merge (merge env.defaults opts) files) envs) ∧
    (∀ w, lookupObj envs k = some w → isObjVal w = false →
        lookupObj (merge (merge (merge env.defaults opts) files) envs) k = some w) ∧
    (∀ v, lookupObj env.defaults k = some v → lookupObj opts k = none →
        lookupObj files k = none → lookupObj envs k = none →
        lookupObj (merge (merge (merge env.defaults opts) files) envs) k = some v) := by
  refine ⟨mergedConfigT_all_sources env opts files envs hfiles henvs hgate1 hgate2, ?_, ?_⟩
  · intro w hw hobj
    rw [lookupObj_merge, hw]
    cases hx : lookupObj (merge (merge env.defaults opts) files) k with
    | none => rfl
    | some v => simp [mergeVal_not_obj hobj]
  · intro v hv h2 h3 h4
    rw [lookupObj_merge, h4, lookupObj_merge, h3, lookupObj_merge, hv, h2]

/-- Evaluation of the first counterexample merge. -/
theorem mergeC2_step1 : merge defaultsC2 optsC2 = c1C2 := by
  simp [defaultsC2, optsC2, c1C2, merge, mergeEntries, mergeUnder, mergeVal,
        lookupObj, List.filter]

/-- Evaluation of the second counterexample merge. -/
theorem mergeC2_step2 : merge c1C2 filesC2 = c2C2 := by
  simp [filesC2, c1C2, c2C2, merge, mergeEntries, mergeUnder, mergeVal,
        lookupObj, List.filter]

/-- Evaluation of the third counterexample merge. -/
theorem mergeC2_step3 : merge c2C2 envsC2 = c3C2 := by
  simp [envsC2, c2C2, c3C2, merge, mergeEntries, mergeUnder, mergeVal,
        lookupObj, List.filter]

/-- C2 (counterexample): the key `a` is present in all four sources, yet
the resolved config's value at `a` is the recursive merge of the four
nested mappings, not the env-sourced value — deep merge recurses into
mappings instead of replacing them. -/
theorem C2_counterexample :
    (lookupObj defaultsC2 "a").isSome = true ∧
    (lookupObj optsC2 "a").isSome = true ∧
    (lookupObj filesC2 "a").isSome = true ∧
    (lookupObj envsC2 "a").isSome = true ∧
    (mergedConfigT envC2 optsC2).1 = Except.ok c3C2 ∧
    lookupObj c3C2 "a" ≠ lookupObj envsC2 "a" := by
  have hd : envC2.defaults = defaultsC2 := rfl
  have hg1 : jsIsEmpty (lookupObj (merge envC2.defaults optsC2) "configSources")
      = false := by
    rw [hd, mergeC2_step1]
    rfl
  have hg2 : hasKey (merge (merge envC2.defaults optsC2) filesC2) "envPrefix"
      = true := by
    rw [hd, mergeC2_step1, mergeC2_step2]
    rfl
  have hres := mergedConfigT_all_sources envC2 optsC2 filesC2 envsC2 rfl
    (fun v => rfl) hg1 hg2
  refine ⟨rfl, rfl, rfl, rfl, ?_, ?_⟩
  · rw [hres, hd, mergeC2_step1, mergeC2_step2, mergeC2_step3]
  · simp [lookupObj, envsC2, c3C2]

/-- A run with empty defaults and empty options resolves to the config
holding only the computed id. -/
theorem resolvedConfigT_trivial (env : Env) (hd : env.defaults = []) :
    resolvedConfigT env [] = (Except.ok [("id", Value.num 0)], []) := by
  unfold resolvedConfigT mergedConfigT envStep
  rw [hd]
  simp [merge_nil_left, lookupObj, jsIsEmpty, hasKey, attachId, hasher, setKey]

/-- A run with no options on defaults free of `configSources` and
`envPrefix` resolves to the defaults with the id attached. -/
theorem resolvedConfigT_plain (env : Env)
    (h1 : lookupObj env.defaults "configSources" = none)
    (h2 : lookupObj env.defaults "envPrefix" = none) :
    resolvedConfigT env [] = (Except.ok (attachId env.defaults), []) := by
  unfold resolvedConfigT mergedConfigT envStep
  rw [merge_nil_right]
  simp [jsIsEmpty, hasKey, h1, h2]

/-- The resolved config of the two-plugin run. -/
theorem resolvedC4_eq :
    resolvedConfigT envC4 optsC4
      = (Except.ok [("plugins", Value.list [Value.str "p1", Value.str "p2"]),
                    ("id", Value.num 0)], []) := by
  unfold resolvedConfigT mergedConfigT envStep
  simp [envC4, optsC4, merge_nil_left, lookupObj, jsIsEmpty, hasKey, attachId,
        hasher, setKey]

/-- C1 (witness): on the two-plugin run the second invocation runs nothing
and returns the promise produced by the first invocation. -/
theorem C1_witness :
    (bootstrapCall envC4 ((bootstrapCall envC4 onceInit optsC4).2.2) optsC4).2.1 = [] ∧
    (bootstrapCall envC4 ((bootstrapCall envC4 onceInit optsC4).2.2) optsC4).1
      = Except.ok (some (Except.ok
          ⟨[("plugins", Value.list [Value.str "p1", Value.str "p2"]),
            ("id", Value.num 0)]⟩)) := by
  refine ⟨(C1_run_once_amended envC4 optsC4 optsC4).1, ?_⟩
  apply (C1_run_once_amended envC4 optsC4 optsC4).2
  unfold bootstrapCall onceInit
  rw [runC4_eq]
  norm_num

/-- C2 (witness): on the spec's flat example the key present in defaults
and env resolves to the env value, and the key present only in the
defaults keeps the defaults value. -/
theorem C2_witness :
    (mergedConfigT envC2w optsC2w).1
      = Except.ok (merge (merge (merge envC2w.defaults optsC2w) filesC2w) envsC2w) ∧
    lookupObj (merge (merge (merge envC2w.defaults optsC2w) filesC2w) envsC2w) "a"
      = some (Value.num 4) ∧
    lookupObj (merge (merge (merge envC2w.defaults optsC2w) filesC2w) envsC2w) "d"
      = some (Value.num 7) := by
  have hm1 : merge envC2w.defaults optsC2w
      = [("a", Value.num 1), ("b", Value.num 2), ("d", Value.num 7),
         ("configSources", Value.list [Value.str "cfg.yml"]),
         ("envPrefix", Value.str "LANDO_")] := by
    simp [envC2w, defaultsC2w, optsC2w, merge, mergeEntries, mergeUnder,
          mergeVal, lookupObj, List.filter]
  have hm2 : merge
      [("a", Value.num 1), ("b", Value.num 2), ("d", Value.num 7),
       ("configSources", Value.list [Value.str "cfg.yml"]),
       ("envPrefix", Value.str "LANDO_")] filesC2w
      = [("a", Value.num 1), ("b", Value.num 2), ("d", Value.num 7),
         ("configSources", Value.list [Value.str "cfg.yml"]),
         ("envPrefix", Value.str "LANDO_"), ("c", Value.num 3)] := by
    simp [filesC2w, merge, mergeEntries, mergeUnder, mergeVal, lookupObj,
          List.filter]
  have hg1 : jsIsEmpty (lookupObj (merge envC2w.defaults optsC2w) "configSources")
      = false := by
    rw [hm1]
    rfl
  have hg2 : hasKey (merge (merge envC2w.defaults optsC2w) filesC2w) "envPrefix"
      = true := by
    rw [hm1, hm2]
    rfl
  have ha := C2_merge_precedence envC2w optsC2w filesC2w envsC2w "a" rfl
    (fun v => rfl) hg1 hg2
  have hd := C2_merge_precedence envC2w optsC2w filesC2w envsC2w "d" rfl
    (fun v => rfl) hg1 hg2
  exact ⟨ha.1, ha.2.1 (Value.num 4) rfl rfl, hd.2.2 (Value.num 7) rfl rfl rfl rfl⟩

/-- C3 (witness): on the two-plugin run the `pre-bootstrap` handlers
complete before every load starts, and the fulfilled run contains the
`post-bootstrap` completion. -/
theorem C3_witness :
    orderedB isPreDone isLoadStart (bootstrapBody envC4 optsC4).2 = true ∧
    Ev.postDone ∈ (bootstrapBody envC4 optsC4).2 := by
  refine ⟨(C3_lifecycle_order envC4 optsC4).2.1, ?_⟩
  apply (C3_lifecycle_order envC4 optsC4).2.2.2.2
    ⟨[("plugins", Value.list [Value.str "p1", Value.str "p2"]), ("id", Value.num 0)]⟩
  rw [runC4_eq]

/-- C4 (witness): on the two-plugin run the recorded load starts are the
two entries in list order, and every start precedes every completion. -/
theorem C4_witness :
    ((bootstrapBody envC4 optsC4).2).filter isLoadStart
      = [Ev.loadStart (Value.str "p1"), Ev.loadStart (Value.str "p2")] ∧
    orderedB isLoadStart isLoadEnd (bootstrapBody envC4 optsC4).2 = true := by
  have h := C4_loads_started_in_order envC4 optsC4
    [("plugins", Value.list [Value.str "p1", Value.str "p2"]), ("id", Value.num 0)]
    [("plugins", Value.list [Value.str "p1", Value.str "p2"]), ("id", Value.num 0)]
    (by rw [resolvedC4_eq]) rfl
  refine ⟨?_, h.2⟩
  rw [h.1]
  rfl

/-- C5 (witness): with a failing `pre-bootstrap` handler the run rejects
with that failure and never emits `post-bootstrap`. -/
theorem C5_witness :
    (bootstrapBody envC5 []).1
      = Outcome.promise (Except.error (BErr.eventHandler "pre-bootstrap" "H2")) ∧
    Ev.emitPost ∉ (bootstrapBody envC5 []).2 := by
  have h := C5_pre_failure_aborts envC5 [] [("id", Value.num 0)]
    (BErr.eventHandler "pre-bootstrap" "H2")
    (by rw [resolvedConfigT_trivial envC5 rfl]) rfl
  exact ⟨h.1, h.2.2⟩

/-- C6 (witness): with a missing config file the run throws the
`ConfigLoadError` and never builds the instance. -/
theorem C6_witness :
    (bootstrapBody envC1 optsC1).1
      = Outcome.thrown (BErr.configLoad "missing config file") ∧
    Ev.buildInstance ∉ (bootstrapBody envC1 optsC1).2 := by
  apply C6_config_load_failure envC1 optsC1 "missing config file"
  · have hm : merge envC1.defaults optsC1 = optsC1 := merge_nil_left optsC1
    rw [hm]
    rfl
  · rfl

/-- C7 (witness): two different runs that agree on `userConfRoot` receive
the same id. -/
theorem C7_witness :
    lookupObj (attachId [("userConfRoot", Value.str "/home/alice/.lando"),
                         ("x", Value.num 1)]) "id"
      = lookupObj (attachId [("userConfRoot", Value.str "/home/alice/.lando")]) "id" := by
  apply C7_identity_deterministic.1 envC7a envC7b [] []
  · rw [resolvedConfigT_plain envC7a rfl rfl]
    rfl
  · rw [resolvedConfigT_plain envC7b rfl rfl]
    rfl
  · rfl

/-- C8 (witness): with a non-empty `configSources` the `loadFiles` call is
recorded, and with an empty one the run is unchanged under an arbitrary
(even failing) `loadFiles` collaborator. -/
theorem C8_witness :
    Ev.loadFilesCall ∈ (bootstrapBody envC1 optsC1).2 ∧
    bootstrapBody
        ⟨envC4.defaults, fun _ => Except.error "boom", envC4.loadEnvs,
         envC4.preHandlers, envC4.loadPlugin, envC4.postHandlers⟩ []
      = bootstrapBody envC4 [] := by
  constructor
  · apply (C8_configSources_gate envC1 optsC1).1.mp
    have hm : merge envC1.defaults optsC1 = optsC1 := merge_nil_left optsC1
    rw [hm]
    rfl
  · apply (C8_configSources_gate envC4 []).2
    have hm : merge envC4.defaults ([] : Obj) = [] := merge_nil_left []
    rw [hm]
    rfl

/-- C9 (witness): the plugin injected by the `pre-bootstrap` handler is
the one that gets loaded, although the original options had none. -/
theorem C9_witness :
    ((bootstrapBody envC9 []).2).filter isLoadStart
      = [Ev.loadStart (Value.str "injected")] := by
  have h := C9_plugins_read_after_pre envC9 [] [("id", Value.num 0)]
    [("id", Value.num 0), ("plugins", Value.list [Value.str "injected"])]
    (by rw [resolvedConfigT_trivial envC9 rfl]) rfl
  rw [h]
  rfl

/-- C10 (witness): with no `plugins` key at all the run completes with the
Instance and still emits `post-bootstrap`. -/
theorem C10_witness :
    (bootstrapBody envC4 []).1
      = Outcome.promise (Except.ok ⟨[("id", Value.num 0)]⟩) ∧
    Ev.emitPost ∈ (bootstrapBody envC4 []).2 := by
  have h := C10_absent_plugins_ok envC4 [] [("id", Value.num 0)] [("id", Value.num 0)]
    (by rw [resolvedConfigT_trivial envC4 rfl]) rfl (Or.inl rfl) rfl
  exact ⟨h.1, h.2.2⟩

end LandoBootstrap

